import Mathlib

/-!
Verification of the BLE lifecycle core of zephyr-watch
(src/src/bluetooth/infrastructure.c).

The shallow embedding models the module-level state flags
(`advertising`, `bt_enabled`, `ble_services_active`, plus the pending
deferred work item and the two callback-table registrations) as a record,
and each C function as a pure state transformer that additionally emits a
trace of externally observable events (stack calls, screen calls,
scheduling operations).  Results of the Zephyr stack calls
(`bt_enable`, `bt_le_adv_start`, `bt_le_adv_stop`,
`bt_conn_auth_cb_register`, ...) are inputs supplied by the environment.
Operations are atomic, matching the mutex-serialized execution of the
source.
-/

set_option autoImplicit false

/-- Externally observable events emitted by the BLE core: calls into the
Zephyr stack, the work-queue, the watchdog-free observable actions, and the
pairing screen. -/
inductive Event where
  | btEnableCall
  | unpairCall
  | settingsLoadCall
  | authCbRegCall
  | authInfoCbRegCall
  | authCbUnregCall
  | setServicesActive (b : Bool)
  | scheduleJob (delayMs : Nat)
  | cancelJob
  | advStartCall
  | advStopCall
  | disconnectCall (reason : Nat)
  | sleepCall (ms : Nat)
  | screenInit
  | screenSetPin (s : String)
  | screenLoad
  | screenUnload
  deriving DecidableEq, Repr

/-- The module-level mutable state of infrastructure.c: the three flags,
whether the delayable advertising work item is pending, and whether the
auth / auth-info callback tables are registered. -/
structure BLEState where
  advertising : Bool
  bt_enabled : Bool
  ble_services_active : Bool
  advScheduled : Bool
  authCbRegistered : Bool
  authInfoCbRegistered : Bool
  deriving DecidableEq, Repr, Fintype

/-- State at process start: all statics are false, nothing pending. -/
def initState : BLEState :=
  ⟨false, false, false, false, false, false⟩

/-- BT_HCI_ERR_REMOTE_USER_TERM_CONN. -/
def HCI_REMOTE_USER_TERM : Nat := 0x13

/-- BT_HCI_ERR_AUTH_FAIL. -/
def HCI_AUTH_FAIL : Nat := 0x05

/-- Results the environment supplies for the stack calls made inside
`enable_bluetooth_subsystem` (0 means success, as in Zephyr). -/
structure EnableEnv where
  btEnableErr : Int
  unpairErr : Int
  authCbErr : Int
  authInfoCbErr : Int
  deriving DecidableEq, Repr

/-- Decimal digit character, as produced by printf-style formatting. -/
def digitChar (d : Nat) : Char := Char.ofNat (48 + d)

/-- Decimal digit characters of a natural number, most significant first
(the characters `%u` prints). -/
def natDecimal (n : Nat) : List Char :=
  if _h : n < 10 then [digitChar n]
  else natDecimal (n / 10) ++ [digitChar (n % 10)]
decreasing_by exact Nat.div_lt_self (by omega) (by omega)

/-- `passkey_to_string`: snprintf(buf, 7, "%06u", passkey) — decimal,
zero-padded to minimum width 6, truncated by snprintf to 6 characters. -/
def passkey_to_string (passkey : Nat) : String :=
  let ds := natDecimal passkey
  String.mk ((List.replicate (6 - ds.length) '0' ++ ds).take 6)

/-- Reads back a decimal string produced by the formatter. -/
def decodeDecimal (s : String) : Nat :=
  s.data.foldl (fun a c => 10 * a + (c.toNat - 48)) 0

/-- `start_advertising_work`: the body of the deferred advertising job.
`advStartErr` is the result of `bt_le_adv_start`. -/
def start_advertising_work (advStartErr : Int) (s : BLEState) :
    BLEState × List Event :=
  if s.advertising || !s.bt_enabled || !s.ble_services_active then
    (s, [])
  else if advStartErr ≠ 0 then
    if s.bt_enabled && s.ble_services_active then
      ({ s with advScheduled := true },
       [Event.advStartCall, Event.scheduleJob 5000])
    else
      (s, [Event.advStartCall])
  else
    ({ s with advertising := true }, [Event.advStartCall])

/-- `start_advertisement`: schedule the advertising job after the 100 ms
settle delay, only if the stack is powered and services are active. -/
def start_advertisement (s : BLEState) : BLEState × List Event :=
  if s.bt_enabled && s.ble_services_active then
    ({ s with advScheduled := true }, [Event.scheduleJob 100])
  else
    (s, [])

/-- `stop_advertising`: cancel the pending job unconditionally; if a
broadcast is running ask the stack to stop it (`advStopErr` is the result
of `bt_le_adv_stop`); on failure return early, leaving `advertising` set. -/
def stop_advertising (advStopErr : Int) (s : BLEState) :
    BLEState × List Event :=
  let s1 := { s with advScheduled := false }
  if !s1.advertising then
    (s1, [Event.cancelJob])
  else if advStopErr ≠ 0 then
    (s1, [Event.cancelJob, Event.advStopCall])
  else
    ({ s1 with advertising := false }, [Event.cancelJob, Event.advStopCall])

/-- `disconnect_all_connections`: only sleeps 100 ms, letting links time
out naturally. -/
def disconnect_all_connections : List Event := [Event.sleepCall 100]

/-- `process_connection` (the `connected` callback). `connErr` is the HCI
error of the connection event, `advStopErr` feeds the `stop_advertising`
call made on a clean connect. -/
def process_connection (connErr : Nat) (advStopErr : Int) (s : BLEState) :
    BLEState × List Event :=
  if !s.ble_services_active then
    if connErr = 0 then
      (s, [Event.disconnectCall HCI_REMOTE_USER_TERM])
    else
      (s, [])
  else if connErr ≠ 0 then
    if s.ble_services_active then start_advertisement s else (s, [])
  else
    stop_advertising advStopErr s

/-- `process_disconnection` (the `disconnected` callback). -/
def process_disconnection (s : BLEState) : BLEState × List Event :=
  if s.bt_enabled && s.ble_services_active then
    start_advertisement s
  else
    (s, [])

/-- `process_passkey_display` (the `passkey_display` auth callback). -/
def process_passkey_display (passkey : Nat) (s : BLEState) :
    BLEState × List Event :=
  if !s.ble_services_active then
    (s, [])
  else
    (s, [Event.screenInit, Event.screenSetPin (passkey_to_string passkey),
         Event.screenLoad])

/-- `process_auth_cancel` (the `cancel` auth callback). -/
def process_auth_cancel (s : BLEState) : BLEState × List Event :=
  (s, [Event.screenUnload])

/-- `process_pairing_complete` (the `pairing_complete` auth-info
callback). -/
def process_pairing_complete (s : BLEState) : BLEState × List Event :=
  (s, [Event.screenUnload])

/-- `process_pairing_failed` (the `pairing_failed` auth-info callback). -/
def process_pairing_failed (s : BLEState) : BLEState × List Event :=
  if s.ble_services_active then
    (s, [Event.disconnectCall HCI_AUTH_FAIL, Event.screenUnload])
  else
    (s, [Event.screenUnload])

/-- `enable_bluetooth_subsystem`. Returns the new state, the event trace
and the int status the C function returns. -/
def enable_bluetooth_subsystem (env : EnableEnv) (s : BLEState) :
    BLEState × List Event × Int :=
  if s.bt_enabled && s.ble_services_active then
    (s, [], 0)
  else if !s.bt_enabled then
    if env.btEnableErr ≠ 0 then
      (s, [Event.btEnableCall], env.btEnableErr)
    else
      let s1 := { s with bt_enabled := true }
      if env.authCbErr ≠ 0 then
        (s1,
         [Event.btEnableCall, Event.unpairCall, Event.settingsLoadCall,
          Event.authCbRegCall],
         env.authCbErr)
      else
        let s2 := { s1 with authCbRegistered := true }
        if env.authInfoCbErr ≠ 0 then
          ({ s2 with authCbRegistered := false },
           [Event.btEnableCall, Event.unpairCall, Event.settingsLoadCall,
            Event.authCbRegCall, Event.authInfoCbRegCall,
            Event.authCbUnregCall],
           env.authInfoCbErr)
        else
          let s3 := { s2 with authInfoCbRegistered := true,
                              ble_services_active := true }
          let r := start_advertisement s3
          (r.1,
           [Event.btEnableCall, Event.unpairCall, Event.settingsLoadCall,
            Event.authCbRegCall, Event.authInfoCbRegCall,
            Event.setServicesActive true] ++ r.2,
           0)
  else
    let s1 := { s with ble_services_active := true }
    let r := start_advertisement s1
    (r.1, [Event.setServicesActive true] ++ r.2, 0)

/-- `disable_bluetooth_subsystem`. `advStopErr` feeds the inner
`stop_advertising` call. -/
def disable_bluetooth_subsystem (advStopErr : Int) (s : BLEState) :
    BLEState × List Event × Int :=
  if !s.ble_services_active then
    (s, [], 0)
  else
    let s1 := { s with ble_services_active := false }
    let r := stop_advertising advStopErr s1
    (r.1, [Event.setServicesActive false] ++ r.2 ++
          disconnect_all_connections, 0)

/-- `is_bluetooth_services_active`. -/
def is_bluetooth_services_active (s : BLEState) : Bool :=
  s.ble_services_active

/-- One atomic action on the shared state, together with the environment
inputs (stack-call results, event parameters) it consumes. -/
inductive Act where
  | enable (env : EnableEnv)
  | disable (advStopErr : Int)
  | advWorkFire (advStartErr : Int)
  | connEvent (connErr : Nat) (advStopErr : Int)
  | disconnEvent
  | recycled
  | passkeyDisplay (passkey : Nat)
  | pairingComplete
  | pairingFailed
  | authCancel
  deriving DecidableEq, Repr

/-- Executes one action.  The deferred job body only runs when the work
item is actually pending; firing consumes the pending flag. -/
def stepFn : Act → BLEState → BLEState × List Event
  | Act.enable env, s =>
      let r := enable_bluetooth_subsystem env s
      (r.1, r.2.1)
  | Act.disable e, s =>
      let r := disable_bluetooth_subsystem e s
      (r.1, r.2.1)
  | Act.advWorkFire e, s =>
      if s.advScheduled then
        start_advertising_work e { s with advScheduled := false }
      else
        (s, [])
  | Act.connEvent ce se, s => process_connection ce se s
  | Act.disconnEvent, s => process_disconnection s
  | Act.recycled, s => start_advertisement s
  | Act.passkeyDisplay pk, s => process_passkey_display pk s
  | Act.pairingComplete, s => process_pairing_complete s
  | Act.pairingFailed, s => process_pairing_failed s
  | Act.authCancel, s => process_auth_cancel s

/-- Runs a sequence of actions, concatenating the emitted traces. -/
def run : List Act → BLEState → BLEState × List Event
  | [], s => (s, [])
  | a :: acts, s =>
      let r1 := stepFn a s
      let r2 := run acts r1.1
      (r2.1, r1.2 ++ r2.2)

/-- Invariant I1 of the spec: advertising implies the stack is powered and
services are active. -/
def I1 (s : BLEState) : Prop :=
  s.advertising = true → s.bt_enabled = true ∧ s.ble_services_active = true

instance (s : BLEState) : Decidable (I1 s) := by
  unfold I1; infer_instance

/-- Restriction under which I1 is inductive: the `bt_le_adv_stop` call
made from `disable_bluetooth_subsystem` succeeds. -/
def stopOk : Act → Prop
  | Act.disable e => e = 0
  | _ => True

instance (a : Act) : Decidable (stopOk a) := by
  cases a <;> (unfold stopOk; infer_instance)

/-- Environment in which every stack call succeeds. -/
def okEnv : EnableEnv := ⟨0, 0, 0, 0⟩

/-- State after a fully successful enable with the advertising job still
pending: stack powered, services active, not yet advertising, job
scheduled, both callback tables registered. -/
def readyState : BLEState := ⟨false, true, true, true, true, true⟩

/-- AD type code BT_DATA_FLAGS. -/
def BT_DATA_FLAGS : Nat := 0x01

/-- AD type code BT_DATA_UUID16_ALL. -/
def BT_DATA_UUID16_ALL : Nat := 0x03

/-- AD type code BT_DATA_UUID128_ALL. -/
def BT_DATA_UUID128_ALL : Nat := 0x07

/-- AD type code BT_DATA_NAME_COMPLETE. -/
def BT_DATA_NAME_COMPLETE : Nat := 0x09

/-- AD type code BT_DATA_MANUFACTURER_DATA. -/
def BT_DATA_MANUFACTURER_DATA : Nat := 0xff

/-- Flag bit BT_LE_AD_GENERAL. -/
def BT_LE_AD_GENERAL : Nat := 0x02

/-- Flag bit BT_LE_AD_NO_BREDR. -/
def BT_LE_AD_NO_BREDR : Nat := 0x04

/-- 16-bit UUID of the Current Time Service (BT_UUID_CTS_VAL). -/
def BT_UUID_CTS_VAL : Nat := 0x1805

/-- One advertising-data structure: AD type plus payload bytes. -/
structure BTData where
  type : Nat
  data : List Nat
  deriving DecidableEq, Repr

/-- BT_UUID_16_ENCODE: little-endian byte encoding of a 16-bit UUID. -/
def uuid16Encode (u : Nat) : List Nat := [u % 256, (u / 256) % 256]

/-- `m_ad`: the primary advertisement payload of infrastructure.c. -/
def m_ad : List BTData :=
  [⟨BT_DATA_FLAGS, [BT_LE_AD_GENERAL ||| BT_LE_AD_NO_BREDR]⟩,
   ⟨BT_DATA_UUID16_ALL, uuid16Encode BT_UUID_CTS_VAL⟩,
   ⟨BT_DATA_UUID128_ALL,
    [0xf0, 0xde, 0xbc, 0x9a, 0x78, 0x56, 0x34, 0x12,
     0x78, 0x56, 0x34, 0x12, 0x78, 0x56, 0x34, 0x12]⟩]

/-- `m_sd`: the scan-response payload of infrastructure.c; the device name
(CONFIG_BT_DEVICE_NAME, a build-time configuration value outside the
sources) is a parameter. -/
def m_sd (deviceName : List Nat) : List BTData :=
  [⟨BT_DATA_NAME_COMPLETE, deviceName⟩,
   ⟨BT_DATA_MANUFACTURER_DATA,
    [0x00, 0x00, Char.toNat 'T', Char.toNat 'S', 0x01]⟩]

lemma start_advertisement_eq (s : BLEState) :
    start_advertisement s =
      (if s.bt_enabled && s.ble_services_active then
         { s with advScheduled := true } else s,
       if s.bt_enabled && s.ble_services_active then
         [Event.scheduleJob 100] else []) := by
  by_cases h : s.bt_enabled && s.ble_services_active <;>
    simp [start_advertisement, h]

lemma stop_advertising_fst (e : Int) (s : BLEState) :
    (stop_advertising e s).1 =
      { s with advScheduled := false,
               advertising := s.advertising && decide (e ≠ 0) } := by
  by_cases ha : s.advertising <;> by_cases he : e = 0 <;>
    simp [stop_advertising, ha, he]

lemma stop_advertising_snd (e : Int) (s : BLEState) :
    (stop_advertising e s).2 =
      Event.cancelJob ::
        (if s.advertising then [Event.advStopCall] else []) := by
  by_cases ha : s.advertising <;> by_cases he : e = 0 <;>
    simp [stop_advertising, ha, he]

lemma stepFn_preserves_I1 (a : Act) (s : BLEState) (ha : stopOk a)
    (h : I1 s) : I1 (stepFn a s).1 := by
  cases a with
  | enable env =>
      simp only [stepFn, enable_bluetooth_subsystem, start_advertisement_eq]
      split_ifs <;> simp_all [I1]
  | disable e =>
      have he : e = 0 := ha
      subst he
      simp only [stepFn, disable_bluetooth_subsystem]
      split_ifs with h1
      · exact h
      · simp [I1, stop_advertising_fst]
  | advWorkFire e =>
      simp only [stepFn, start_advertising_work]
      split_ifs <;> simp_all [I1]
  | connEvent ce se =>
      simp only [stepFn, process_connection, start_advertisement_eq]
      split_ifs <;>
        simp_all [I1, stop_advertising_fst]
  | disconnEvent =>
      simp only [stepFn, process_disconnection, start_advertisement_eq]
      split_ifs <;> simp_all [I1]
  | recycled =>
      simp only [stepFn, start_advertisement_eq]
      split_ifs <;> simp_all [I1]
  | passkeyDisplay pk =>
      simp only [stepFn, process_passkey_display]
      split_ifs <;> simp_all [I1]
  | pairingComplete => exact h
  | pairingFailed =>
      simp only [stepFn, process_pairing_failed]
      split_ifs <;> simp_all [I1]
  | authCancel => exact h

lemma run_preserves_I1 (acts : List Act) (s : BLEState)
    (ha : ∀ a ∈ acts, stopOk a) (h : I1 s) : I1 (run acts s).1 := by
  induction acts generalizing s with
  | nil => exact h
  | cons a acts ih =>
      simp only [run]
      exact ih (stepFn a s).1
        (fun b hb => ha b (List.mem_cons_of_mem _ hb))
        (stepFn_preserves_I1 a s (ha a (List.mem_cons_self _ _)) h)

lemma stepFn_preserves_bt (a : Act) (s : BLEState) (h : s.bt_enabled = true) :
    (stepFn a s).1.bt_enabled = true := by
  cases a <;>
    simp only [stepFn, enable_bluetooth_subsystem,
      disable_bluetooth_subsystem, start_advertising_work,
      start_advertisement_eq, process_connection, process_disconnection,
      process_passkey_display, process_auth_cancel,
      process_pairing_complete, process_pairing_failed] <;>
    (try split_ifs) <;>
    simp_all [stop_advertising_fst]

/-- C1 (counterexample): invariant I1 does NOT hold in every reachable
state.  After a successful enable and a successful advertising start, a
`disable` in which the stack's stop-broadcast call fails (err = 1) leaves
`advertising = true` while `ble_services_active = false`:
`stop_advertising` returns early on the error without clearing the flag,
and `disable_bluetooth_subsystem` has already cleared the services flag. -/
theorem C1_counterexample :
    ¬ I1 (run [Act.enable okEnv, Act.advWorkFire 0, Act.disable 1]
            initState).1 := by decide

/-- C1 (amended): invariant I1 (`advertising` implies `bt_enabled` and
`ble_services_active`) holds in every state reachable from the start state
by runs in which the stop-broadcast call made inside
`disable_bluetooth_subsystem` always succeeds. -/
theorem C1_I1_holds (acts : List Act) (ha : ∀ a ∈ acts, stopOk a) :
    I1 (run acts initState).1 :=
  run_preserves_I1 acts initState ha (by decide)

/-- Witness for C1_I1_holds at a concrete run. -/
theorem C1_I1_holds_witness :
    (∀ a ∈ [Act.enable okEnv, Act.disable 0], stopOk a) ∧
    I1 (run [Act.enable okEnv, Act.disable 0] initState).1 :=
  ⟨by decide, C1_I1_holds [Act.enable okEnv, Act.disable 0] (by decide)⟩

/-- C2: enable is idempotent: from the start state, two successive calls
of `enable_bluetooth_subsystem` in a fully successful environment both
return 0 and leave `ble_services_active = true`, while `bt_enable` is
called exactly once across the two calls; moreover no action of the
system ever resets `bt_enabled` from true back to false. -/
theorem C2_enable_idempotent :
    ((enable_bluetooth_subsystem okEnv initState).2.2 = 0 ∧
     (enable_bluetooth_subsystem okEnv initState).1.ble_services_active
       = true ∧
     (enable_bluetooth_subsystem okEnv
        (enable_bluetooth_subsystem okEnv initState).1).2.2 = 0 ∧
     (enable_bluetooth_subsystem okEnv
        (enable_bluetooth_subsystem okEnv
          initState).1).1.ble_services_active = true ∧
     (run [Act.enable okEnv, Act.enable okEnv] initState).2.count
        Event.btEnableCall = 1) ∧
    ∀ (a : Act) (s : BLEState), s.bt_enabled = true →
      (stepFn a s).1.bt_enabled = true :=
  ⟨by decide, stepFn_preserves_bt⟩

/-- Witness for C2_enable_idempotent at a concrete action and state. -/
theorem C2_enable_idempotent_witness :
    (⟨false, true, false, false, false, false⟩ : BLEState).bt_enabled
      = true ∧
    (stepFn Act.recycled
      ⟨false, true, false, false, false, false⟩).1.bt_enabled = true :=
  ⟨by decide,
   C2_enable_idempotent.2 Act.recycled
     ⟨false, true, false, false, false, false⟩ (by decide)⟩

/-- C3: if `bt_enable` fails during a first-time enable, the call returns
that error, the state is unchanged (both flags stay false) and no
advertising job is scheduled. -/
theorem C3_bt_enable_failure (e u ac ai : Int) (he : e ≠ 0) :
    enable_bluetooth_subsystem ⟨e, u, ac, ai⟩ initState =
      (initState, [Event.btEnableCall], e) ∧
    (enable_bluetooth_subsystem ⟨e, u, ac, ai⟩ initState).1.bt_enabled
      = false ∧
    (enable_bluetooth_subsystem
        ⟨e, u, ac, ai⟩ initState).1.ble_services_active = false ∧
    ∀ d, Event.scheduleJob d ∉
        (enable_bluetooth_subsystem ⟨e, u, ac, ai⟩ initState).2.1 := by
  have h1 : enable_bluetooth_subsystem ⟨e, u, ac, ai⟩ initState =
      (initState, [Event.btEnableCall], e) := by
    simp [enable_bluetooth_subsystem, initState, he]
  refine ⟨h1, ?_, ?_, ?_⟩ <;> rw [h1] <;> simp [initState]

/-- Witness for C3_bt_enable_failure at error 5. -/
theorem C3_bt_enable_failure_witness :
    ((5 : Int) ≠ 0) ∧
    enable_bluetooth_subsystem ⟨5, 0, 0, 0⟩ initState =
      (initState, [Event.btEnableCall], 5) :=
  ⟨by decide, (C3_bt_enable_failure 5 0 0 0 (by decide)).1⟩

/-- C4: in every non-no-op execution of `disable_bluetooth_subsystem` the
clearing of `ble_services_active` is the first event of the trace, and
both the job cancellation and any stop-broadcast call occur strictly
after it. -/
theorem C4_disable_ordering (e : Int) (s : BLEState)
    (hs : s.ble_services_active = true) :
    ∃ rest,
      (disable_bluetooth_subsystem e s).2.1 =
        Event.setServicesActive false :: rest ∧
      Event.cancelJob ∈ rest ∧
      (Event.advStopCall ∈ (disable_bluetooth_subsystem e s).2.1 →
        Event.advStopCall ∈ rest) := by
  have htr : (disable_bluetooth_subsystem e s).2.1 =
      Event.setServicesActive false ::
        ((stop_advertising e { s with ble_services_active := false }).2 ++
          disconnect_all_connections) := by
    simp [disable_bluetooth_subsystem, hs]
  refine ⟨_, htr, ?_, ?_⟩
  · simp [stop_advertising_snd]
  · intro hmem
    rw [htr] at hmem
    rcases List.mem_cons.mp hmem with h | h
    · simp at h
    · exact h

/-- Witness for C4_disable_ordering at a concrete state. -/
theorem C4_disable_ordering_witness :
    (⟨true, true, true, false, true, true⟩ : BLEState).ble_services_active
      = true ∧
    ∃ rest,
      (disable_bluetooth_subsystem 0
         ⟨true, true, true, false, true, true⟩).2.1 =
        Event.setServicesActive false :: rest ∧
      Event.cancelJob ∈ rest ∧
      (Event.advStopCall ∈
          (disable_bluetooth_subsystem 0
            ⟨true, true, true, false, true, true⟩).2.1 →
        Event.advStopCall ∈ rest) :=
  ⟨rfl, C4_disable_ordering 0 ⟨true, true, true, false, true, true⟩ rfl⟩

/-- C5: the deferred job body exits without side effects whenever its
guard `services_active && stack_powered && !advertising` fails, and in
the quick-toggle scenario (enable, then disable before the job fires) the
state never shows advertising and no start-broadcast call happens. -/
theorem C5_job_guard_and_quick_toggle :
    (∀ (e : Int) (s : BLEState),
        ¬(s.ble_services_active = true ∧ s.bt_enabled = true ∧
          s.advertising = false) →
        start_advertising_work e s = (s, [])) ∧
    ∀ e : Int,
      (run [Act.enable okEnv, Act.disable 0, Act.advWorkFire e]
         initState).1.advertising = false ∧
      (run [Act.enable okEnv, Act.disable 0, Act.advWorkFire e]
         initState).2.count Event.advStartCall = 0 := by
  constructor
  · intro e s h
    cases ha : s.advertising <;> cases hb : s.bt_enabled <;>
      cases hc : s.ble_services_active <;>
      simp_all [start_advertising_work]
  · intro e
    exact ⟨rfl, rfl⟩

/-- Witness for C5_job_guard_and_quick_toggle in the initial state. -/
theorem C5_job_guard_witness :
    (¬(initState.ble_services_active = true ∧ initState.bt_enabled = true ∧
        initState.advertising = false)) ∧
    start_advertising_work 0 initState = (initState, []) :=
  ⟨by decide, C5_job_guard_and_quick_toggle.1 0 initState (by decide)⟩

/-- C6: on a start-broadcast failure the job reschedules itself with the
fixed 5-second backoff exactly when the stack is powered and services are
active (and never reschedules with that backoff otherwise); in the
scenario where the first n attempts fail and attempt n+1 succeeds, the
run makes exactly n backoff reschedules and n+1 start-broadcast calls and
ends with `advertising = true`. -/
theorem C6_retry_backoff :
    (∀ (e : Int) (s : BLEState), e ≠ 0 → s.advertising = false →
        s.bt_enabled = true → s.ble_services_active = true →
        start_advertising_work e s =
          ({ s with advScheduled := true },
           [Event.advStartCall, Event.scheduleJob 5000])) ∧
    (∀ (e : Int) (s : BLEState),
        s.bt_enabled = false ∨ s.ble_services_active = false →
        (start_advertising_work e s).2.count (Event.scheduleJob 5000)
          = 0) ∧
    ∀ n : Nat,
      (run (List.replicate n (Act.advWorkFire 1) ++ [Act.advWorkFire 0])
         readyState).1.advertising = true ∧
      (run (List.replicate n (Act.advWorkFire 1) ++ [Act.advWorkFire 0])
         readyState).2.count (Event.scheduleJob 5000) = n ∧
      (run (List.replicate n (Act.advWorkFire 1) ++ [Act.advWorkFire 0])
         readyState).2.count Event.advStartCall = n + 1 := by
  refine ⟨?_, ?_, ?_⟩
  · intro e s he ha hb hc
    simp [start_advertising_work, ha, hb, hc, he]
  · intro e s h
    rcases h with h | h <;>
      cases ha : s.advertising <;>
      simp_all [start_advertising_work]
  · intro n
    induction n with
    | zero => exact ⟨by decide, by decide, by decide⟩
    | succ n ih =>
        have hstep : stepFn (Act.advWorkFire 1) readyState =
            (readyState, [Event.advStartCall, Event.scheduleJob 5000]) :=
          by decide
        simp only [List.replicate_succ, List.cons_append, run, hstep]
        refine ⟨ih.1, ?_, ?_⟩
        · simp [List.count_append, ih.2.1]
        · simp [List.count_append, ih.2.2]

/-- Witness for C6_retry_backoff at a concrete failing attempt. -/
theorem C6_retry_backoff_witness :
    ((1 : Int) ≠ 0) ∧ readyState.advertising = false ∧
    readyState.bt_enabled = true ∧ readyState.ble_services_active = true ∧
    start_advertising_work 1 readyState =
      ({ readyState with advScheduled := true },
       [Event.advStartCall, Event.scheduleJob 5000]) :=
  ⟨by decide, rfl, rfl, rfl,
   C6_retry_backoff.1 1 readyState (by decide) rfl rfl rfl⟩

/-- C8 (counterexample): it is not the case that every incoming
connection event while services are inactive triggers a termination
request: a failed-connection event (err = 1) in the initial state
produces no disconnect call at all. -/
theorem C8_counterexample :
    ¬ ∀ (connErr : Nat) (advStopErr : Int) (s : BLEState),
        s.ble_services_active = false →
        Event.disconnectCall HCI_REMOTE_USER_TERM ∈
          (process_connection connErr advStopErr s).2 := by
  intro h
  have h1 := h 1 0 initState rfl
  simp [process_connection, initState] at h1

/-- C8 (amended): while services are inactive, a successfully established
connection (err = 0) is answered by exactly one termination request with
reason BT_HCI_ERR_REMOTE_USER_TERM_CONN and nothing else, a
failed-connection event (err ≠ 0) is ignored entirely, and in both cases
the state is unchanged. -/
theorem C8_amended (connErr : Nat) (advStopErr : Int) (s : BLEState)
    (h : s.ble_services_active = false) :
    process_connection connErr advStopErr s =
      (s, if connErr = 0 then
            [Event.disconnectCall HCI_REMOTE_USER_TERM]
          else []) := by
  by_cases hc : connErr = 0 <;> simp [process_connection, h, hc]

/-- Witness for C8_amended at a clean connect in the initial state. -/
theorem C8_amended_witness :
    initState.ble_services_active = false ∧
    process_connection 0 0 initState =
      (initState, [Event.disconnectCall HCI_REMOTE_USER_TERM]) :=
  ⟨rfl, by simpa using C8_amended 0 0 initState rfl⟩

/-- C9 (counterexample): the manufacturer-specific block in the scan
response carries 5 bytes (two company-identifier bytes, the two marker
characters and one version byte), not 8 bytes as claimed. -/
theorem C9_counterexample :
    ((m_sd []).map (fun d => d.data.length)) = [0, 5] ∧ (5 : Nat) ≠ 8 :=
  ⟨by decide, by decide⟩

/-- C9 (amended): the advertisement payload matches the spec bit-exactly
with a 5-byte manufacturer block: primary data is the flags byte 0x06
(general discoverable, no BR/EDR), the 16-bit Current Time Service UUID
0x1805 encoded little-endian, and the 128-bit vendor time-sync UUID; the
scan response is the complete device name plus manufacturer data
0x00 0x00 (company-id placeholder), the marker characters 0x54 0x53 and
version byte 0x01. -/
theorem C9_amended (deviceName : List Nat) :
    m_ad =
      [⟨0x01, [0x06]⟩,
       ⟨0x03, [0x05, 0x18]⟩,
       ⟨0x07, [0xf0, 0xde, 0xbc, 0x9a, 0x78, 0x56, 0x34, 0x12,
               0x78, 0x56, 0x34, 0x12, 0x78, 0x56, 0x34, 0x12]⟩] ∧
    m_sd deviceName =
      [⟨0x09, deviceName⟩, ⟨0xff, [0x00, 0x00, 0x54, 0x53, 0x01]⟩] :=
  ⟨by decide, rfl⟩

/-- C10: when the stack powers on but the auth-callback registration
fails during the first-time enable, the call returns that error, leaving
`bt_enabled = true`, services inactive and no callbacks registered; a
subsequent enable skips the whole first-time block (no `bt_enable`, no
registration attempt), activates services, schedules advertising and
returns 0 — so the subsystem comes up with the callbacks never
registered. -/
theorem C10_partial_bringup (e : Int) (he : e ≠ 0) :
    (enable_bluetooth_subsystem ⟨0, 0, e, 0⟩ initState).2.2 = e ∧
    (enable_bluetooth_subsystem ⟨0, 0, e, 0⟩ initState).1 =
      { initState with bt_enabled := true } ∧
    (enable_bluetooth_subsystem okEnv
       { initState with bt_enabled := true }).2.2 = 0 ∧
    (enable_bluetooth_subsystem okEnv
       { initState with bt_enabled := true }).1 =
      { initState with bt_enabled := true, ble_services_active := true,
                       advScheduled := true } ∧
    (enable_bluetooth_subsystem okEnv
       { initState with bt_enabled := true }).1.authCbRegistered
      = false ∧
    Event.btEnableCall ∉
      (enable_bluetooth_subsystem okEnv
        { initState with bt_enabled := true }).2.1 ∧
    Event.authCbRegCall ∉
      (enable_bluetooth_subsystem okEnv
        { initState with bt_enabled := true }).2.1 ∧
    Event.scheduleJob 100 ∈
      (enable_bluetooth_subsystem okEnv
        { initState with bt_enabled := true }).2.1 := by
  have h1 : enable_bluetooth_subsystem ⟨0, 0, e, 0⟩ initState =
      ({ initState with bt_enabled := true },
       [Event.btEnableCall, Event.unpairCall, Event.settingsLoadCall,
        Event.authCbRegCall], e) := by
    simp [enable_bluetooth_subsystem, initState, he]
  refine ⟨by rw [h1], by rw [h1], ?_, ?_, ?_, ?_, ?_, ?_⟩ <;> decide

/-- Witness for C10_partial_bringup at error 7. -/
theorem C10_partial_bringup_witness :
    ((7 : Int) ≠ 0) ∧
    (enable_bluetooth_subsystem ⟨0, 0, 7, 0⟩ initState).2.2 = 7 :=
  ⟨by decide, (C10_partial_bringup 7 (by decide)).1⟩

lemma digitChar_toNat (d : Nat) (h : d ≤ 9) :
    (digitChar d).toNat = 48 + d := by
  interval_cases d <;> decide

lemma natDecimal_length_le (k n : Nat) (h : n < 10 ^ (k + 1)) :
    (natDecimal n).length ≤ k + 1 := by
  induction k generalizing n with
  | zero =>
      have h10 : n < 10 := by simpa using h
      rw [natDecimal.eq_def, dif_pos h10]
      simp
  | succ k ih =>
      rw [natDecimal.eq_def]
      by_cases h10 : n < 10
      · rw [dif_pos h10]
        simp
      · rw [dif_neg h10]
        have hdiv : n / 10 < 10 ^ (k + 1) := by
          rw [Nat.div_lt_iff_lt_mul (by norm_num)]
          calc n < 10 ^ (k + 1 + 1) := h
            _ = 10 ^ (k + 1) * 10 := by ring
        have hle := ih (n / 10) hdiv
        simp only [List.length_append, List.length_singleton]
        omega

lemma natDecimal_foldl (n : Nat) :
    ∀ a : Nat,
      (natDecimal n).foldl (fun acc c => 10 * acc + (c.toNat - 48)) a =
        a * 10 ^ (natDecimal n).length + n := by
  induction n using Nat.strong_induction_on with
  | _ n ih =>
    intro a
    rw [natDecimal.eq_def]
    by_cases h10 : n < 10
    · rw [dif_pos h10]
      simp only [List.foldl_cons, List.foldl_nil, List.length_singleton,
        digitChar_toNat n (by omega), pow_one]
      omega
    · rw [dif_neg h10]
      have hlt : n / 10 < n := Nat.div_lt_self (by omega) (by omega)
      rw [List.foldl_append, ih (n / 10) hlt a]
      simp only [List.foldl_cons, List.foldl_nil, List.length_append,
        List.length_singleton, digitChar_toNat (n % 10) (by omega)]
      rw [pow_succ]
      have e2 : 10 * (n / 10) + n % 10 = n := by omega
      calc 10 * (a * 10 ^ (natDecimal (n / 10)).length + n / 10) +
            (48 + n % 10 - 48)
          = a * (10 ^ (natDecimal (n / 10)).length * 10) +
            (10 * (n / 10) + n % 10) := by
            have e1 : 48 + n % 10 - 48 = n % 10 := by omega
            rw [e1]; ring
        _ = a * (10 ^ (natDecimal (n / 10)).length * 10) + n := by rw [e2]

lemma natDecimal_digits (n : Nat) :
    ∀ c ∈ natDecimal n, 48 ≤ c.toNat ∧ c.toNat ≤ 57 := by
  induction n using Nat.strong_induction_on with
  | _ n ih =>
    rw [natDecimal.eq_def]
    by_cases h10 : n < 10
    · rw [dif_pos h10]
      intro c hc
      simp only [List.mem_singleton] at hc
      subst hc
      rw [digitChar_toNat n (by omega)]
      omega
    · rw [dif_neg h10]
      intro c hc
      rcases List.mem_append.mp hc with h | h
      · exact ih (n / 10) (Nat.div_lt_self (by omega) (by omega)) c h
      · simp only [List.mem_singleton] at h
        subst h
        rw [digitChar_toNat (n % 10) (by omega)]
        omega

lemma foldl_replicate_zero (m : Nat) :
    (List.replicate m '0').foldl
      (fun acc c => 10 * acc + (c.toNat - 48)) 0 = 0 := by
  induction m with
  | zero => rfl
  | succ m ih =>
      have h0 : (10 * 0 + ('0'.toNat - 48)) = 0 := by decide
      simp only [List.replicate_succ, List.foldl_cons, h0]
      exact ih

lemma passkey_to_string_data (pk : Nat) (h : pk ≤ 999999) :
    (passkey_to_string pk).data =
      List.replicate (6 - (natDecimal pk).length) '0' ++ natDecimal pk := by
  have hlen : (natDecimal pk).length ≤ 6 :=
    natDecimal_length_le 5 pk (by omega)
  have hl : (List.replicate (6 - (natDecimal pk).length) '0' ++
      natDecimal pk).length = 6 := by
    simp only [List.length_append, List.length_replicate]
    omega
  simp only [passkey_to_string]
  rw [List.take_of_length_le hl.le]

/-- C7: the passkey-display callback is a no-op while services are
inactive; while active it performs exactly one screen init, one set-code
and one show call, with the passkey rendered as a six-character
zero-padded decimal string for every passkey up to 999999 (42 renders as
"000042"); a pairing-complete or pairing-failed callback performs exactly
one hide call. -/
theorem C7_passkey_flow :
    (∀ (pk : Nat) (s : BLEState), s.ble_services_active = false →
        process_passkey_display pk s = (s, [])) ∧
    (∀ (pk : Nat) (s : BLEState), s.ble_services_active = true →
        process_passkey_display pk s =
          (s, [Event.screenInit,
               Event.screenSetPin (passkey_to_string pk),
               Event.screenLoad])) ∧
    (∀ pk : Nat, pk ≤ 999999 →
        (passkey_to_string pk).length = 6 ∧
        decodeDecimal (passkey_to_string pk) = pk ∧
        ∀ c ∈ (passkey_to_string pk).data,
          48 ≤ c.toNat ∧ c.toNat ≤ 57) ∧
    passkey_to_string 42 = "000042" ∧
    (∀ s : BLEState,
        (process_pairing_complete s).2.count Event.screenUnload = 1) ∧
    (∀ s : BLEState,
        (process_pairing_failed s).2.count Event.screenUnload = 1) := by
  refine ⟨?_, ?_, ?_, ?_, ?_, ?_⟩
  · intro pk s h
    simp [process_passkey_display, h]
  · intro pk s h
    simp [process_passkey_display, h]
  · intro pk h
    have hlen : (natDecimal pk).length ≤ 6 :=
      natDecimal_length_le 5 pk (by omega)
    have hdata := passkey_to_string_data pk h
    refine ⟨?_, ?_, ?_⟩
    · show (passkey_to_string pk).data.length = 6
      rw [hdata]
      simp only [List.length_append, List.length_replicate]
      omega
    · show (passkey_to_string pk).data.foldl
        (fun a c => 10 * a + (c.toNat - 48)) 0 = pk
      rw [hdata, List.foldl_append, foldl_replicate_zero,
        natDecimal_foldl pk 0]
      simp
    · intro c hc
      rw [hdata] at hc
      rcases List.mem_append.mp hc with hmem | hmem
      · have : c = '0' := List.eq_of_mem_replicate hmem
        subst this
        decide
      · exact natDecimal_digits pk c hmem
  · have h42 : natDecimal 42 = ['4', '2'] := by
      rw [natDecimal.eq_def]
      norm_num
      rw [natDecimal.eq_def]
      norm_num
      decide
    simp [passkey_to_string, h42]
  · intro s
    simp [process_pairing_complete]
  · intro s
    by_cases h : s.ble_services_active <;>
      simp [process_pairing_failed, h]

/-- Witness for C7_passkey_flow at passkey 42 in an active state. -/
theorem C7_passkey_flow_witness :
    readyState.ble_services_active = true ∧
    process_passkey_display 42 readyState =
      (readyState,
       [Event.screenInit, Event.screenSetPin (passkey_to_string 42),
        Event.screenLoad]) ∧
    (42 : Nat) ≤ 999999 ∧
    decodeDecimal (passkey_to_string 42) = 42 :=
  ⟨rfl, C7_passkey_flow.2.1 42 readyState rfl, by decide,
   (C7_passkey_flow.2.2.1 42 (by decide)).2.1⟩
